import Mathlib

/-!
Verification of the serial transport layer of the CCID driver
(`src/ccid_serial.c`): frame encoding (`WriteSerial`), the goto-driven
decode state machine (`ReadSerial`), the buffered-read layer
(`get_bytes` / `ReadChunk`) and the port-open bookkeeping
(`OpenSerialByName`).

Bytes are modelled as `Nat` (values < 256 on a real wire; the arithmetic
used by the code — XOR and little-endian reassembly — needs no wrap-around
for byte-sized inputs, and where the C casts to `unsigned int` we take the
result `% 2^32` explicitly).  Fallible operations return `Option`/status
pairs; the byte source and the OS read/select calls are scripted oracles.
-/

namespace CCIDSerial

/-- Wire constants from `ccid_serial.c` lines 45-50. -/
def SYNC : Nat := 0x03

def CTRL_ACK : Nat := 0x06

def CTRL_NAK : Nat := 0x15

def RDR_to_PC_NotifySlotChange : Nat := 0x50

def CARD_ABSENT : Nat := 0x02

def CARD_PRESENT : Nat := 0x03

/-- Buffer capacity `GEMPCTWIN_MAXBUF = (271 + 2 + 1) * 2` (line 95). -/
def GEMPCTWIN_MAXBUF : Nat := (271 + 2 + 1) * 2

/-- The status codes the file returns.  `status_t` and the `STATUS_*`
constants come from the driver's shared headers (not part of this file);
only their distinctness matters here, so they are an inductive type. -/
inductive Status where
  | STATUS_SUCCESS
  | STATUS_COMM_ERROR
  | STATUS_UNSUCCESSFUL
deriving DecidableEq, Repr

open Status

/-- Left-to-right XOR of a byte list (the LRC accumulation loops at
lines 222-224 and 349-350). -/
def lrcFold (l : List Nat) : Nat := l.foldl (fun a b => a ^^^ b) 0

/-- Modelled from the spec: `dw2i` (a macro from the shared header
`defs.h`, not in this file) decodes the 32-bit little-endian
payload-length field found at offset `x`; the spec calls it the
"32-bit little-endian payload-length field at a known offset", cast to
`unsigned int` (hence the `% 2^32`). -/
def dw2i (a : List Nat) (x : Nat) : Nat :=
  (a.getD x 0 + a.getD (x + 1) 0 * 256 + a.getD (x + 2) 0 * 65536 +
    a.getD (x + 3) 0 * 16777216) % 4294967296

/-- Encoder `WriteSerial` (lines 194-239): rejects payloads longer than
`GEMPCTWIN_MAXBUF - 3`; otherwise builds
`[SYNC, ACK] ++ payload ++ [LRC]` and writes it with one `write` call
whose success is the oracle `writeOk`.  Returns the status together with
the low-level buffer that was assembled (`none` when the length check
fails before any buffer is built). -/
def WriteSerial (writeOk : Bool) (payload : List Nat) :
    Status × Option (List Nat) :=
  if payload.length > GEMPCTWIN_MAXBUF - 3 then
    (STATUS_UNSUCCESSFUL, none)
  else
    let head := [SYNC, CTRL_ACK] ++ payload
    let low_level_buffer := head ++ [lrcFold head]
    if writeOk then (STATUS_SUCCESS, some low_level_buffer)
    else (STATUS_UNSUCCESSFUL, some low_level_buffer)

/-- Manual decode of an encoded buffer: strip the 2-byte header and the
trailing checksum byte. -/
def manualDecode (buf : List Nat) : List Nat := (buf.drop 2).dropLast

/-- Link events the decoder reports while scanning (the slot-change
classification at lines 284-296). -/
inductive Event where
  | CardRemoved
  | CardInserted
  | UnknownMovement (code : Nat)
deriving DecidableEq, Repr

/-- Classification of the movement code byte (lines 284-296). -/
def movementEvent (m : Nat) : Event :=
  if m = CARD_ABSENT then Event.CardRemoved
  else if m = CARD_PRESENT then Event.CardInserted
  else Event.UnknownMovement m

/-- Outcome of one `ReadSerial` call: the returned status, the frame
landed in the caller's buffer (when one was), the slot-change events
reported along the way, and the remaining byte source. -/
structure ReadResult (σ : Type) where
  status : Status
  frame : Option (List Nat)
  events : List Event
  src : σ
deriving DecidableEq

/-- Decoder `ReadSerial` (lines 247-362), generic over the byte source `get`
standing for `get_bytes`.  The `goto` labels `start`, `slot_change`,
`sync`, `nak`, `ack` become the branches below; `fuel` bounds the number
of passes through `start` (`none` = fuel exhausted).  `echo` is the flag
set to TRUE on entry and cleared after the first complete ACK frame
(lines 355-359). -/
def readSerialAux {σ : Type} (get : σ → Nat → Option (Status × List Nat × σ)) :
    Nat → Bool → σ → List Event → Option (ReadResult σ)
  | 0, _, _, _ => none
  | fuel + 1, echo, s, evs =>
    match get s 1 with
    | none => none
    | some (rv, bs, s1) =>
      if rv ≠ STATUS_SUCCESS then some ⟨rv, none, evs, s1⟩
      else
        let c := bs.headD 0
        if c = RDR_to_PC_NotifySlotChange then
          -- slot_change: read the movement code, report it, goto start
          match get s1 1 with
          | none => none
          | some (rv2, bs2, s2) =>
            if rv2 ≠ STATUS_SUCCESS then some ⟨rv2, none, evs, s2⟩
            else readSerialAux get fuel echo s2 (evs ++ [movementEvent (bs2.headD 0)])
        else if c = SYNC then
          -- sync: read the control byte
          match get s1 1 with
          | none => none
          | some (rv2, bs2, s2) =>
            if rv2 ≠ STATUS_SUCCESS then some ⟨rv2, none, evs, s2⟩
            else
              let k := bs2.headD 0
              if k = CTRL_ACK then
                -- ack: 5-byte header, then the rest of the 10+dw2i frame,
                -- then the LRC byte (checked only for the log)
                match get s2 5 with
                | none => none
                | some (rv3, hdr, s3) =>
                  if rv3 ≠ STATUS_SUCCESS then some ⟨rv3, none, evs, s3⟩
                  else
                    let to_read := 10 + dw2i hdr 1
                    match get s3 (to_read - 5) with
                    | none => none
                    | some (rv4, body, s4) =>
                      if rv4 ≠ STATUS_SUCCESS then some ⟨rv4, none, evs, s4⟩
                      else
                        match get s4 1 with
                        | none => none
                        | some (rv5, _, s5) =>
                          if rv5 ≠ STATUS_SUCCESS then some ⟨rv5, none, evs, s5⟩
                          else if echo then readSerialAux get fuel false s5 evs
                          else some ⟨STATUS_SUCCESS, some (hdr ++ body), evs, s5⟩
              else if k = CTRL_NAK then
                -- nak: read and check the NAK LRC byte
                match get s2 1 with
                | none => none
                | some (rv3, bs3, s3) =>
                  if rv3 ≠ STATUS_SUCCESS then some ⟨rv3, none, evs, s3⟩
                  else if bs3.headD 0 ≠ (SYNC ^^^ CTRL_NAK) then
                    some ⟨STATUS_COMM_ERROR, none, evs, s3⟩
                  else readSerialAux get fuel echo s3 evs
              else some ⟨STATUS_COMM_ERROR, none, evs, s2⟩
        else if c ≥ 0x80 then
          -- time request: discard and goto start
          readSerialAux get fuel echo s1 evs
        else some ⟨STATUS_COMM_ERROR, none, evs, s1⟩

/-- The byte source for a scripted input stream: `n` bytes are delivered
when available; a request beyond the end of the stream stands for a
`get_bytes` failure (`STATUS_COMM_ERROR`). -/
def streamGet (s : List Nat) (n : Nat) : Option (Status × List Nat × List Nat) :=
  if n ≤ s.length then some (STATUS_SUCCESS, s.take n, s.drop n)
  else some (STATUS_COMM_ERROR, s.take n, s.drop n)

/-- The decoder run on a scripted byte stream (echo flag initially TRUE,
line 257). -/
def ReadSerial (fuel : Nat) (stream : List Nat) : Option (ReadResult (List Nat)) :=
  readSerialAux streamGet fuel true stream []

/-- A well-formed response frame: its total length is the 10-byte fixed
framing overhead plus the payload length declared in the little-endian
field at offset 1 (line 333: `to_read = 10 + dw2i(buffer, 1)`). -/
def WFframe (f : List Nat) : Prop := f.length = 10 + dw2i f 1

instance (f : List Nat) : Decidable (WFframe f) := by
  unfold WFframe; infer_instance

/-- One on-wire response unit with a correct trailing checksum:
`SYNC, ACK`, the frame, then the LRC byte chosen so that XOR-ing it with
every frame byte gives `SYNC ^^^ CTRL_ACK` (the check at line 352). -/
def encodeResponse (f : List Nat) : List Nat :=
  SYNC :: CTRL_ACK :: (f ++ [(SYNC ^^^ CTRL_ACK) ^^^ lrcFold f])

/-- One iteration outcome of the select/read loop in `ReadChunk`
(lines 440-476): `select` returning −1, `select` returning 0 (timeout),
`read` returning a negative value, or `read` delivering bytes.  The OS
may hand back fewer bytes than asked for; it can never hand back more,
so the model truncates the scripted bytes to the requested count,
mirroring the POSIX contract of `read`. -/
inductive ChunkEvent where
  | selectError
  | selectTimeout
  | readError
  | readData (bytes : List Nat)
deriving DecidableEq, Repr

/-- Overwrite `buf[ar .. ar + bs.length)` with `bs` — the effect of
`read` landing bytes at `buffer + already_read` (line 462). -/
def writeAt (buf : List Nat) (ar : Nat) (bs : List Nat) : List Nat :=
  buf.take ar ++ bs ++ buf.drop (ar + bs.length)

/-- The `while (already_read < min_length)` loop of `ReadChunk`
(lines 441-476) over a scripted list of OS events.  Returns the C `int`
result (−1 on any select/read failure, line 453/459/466; else the total
`already_read`, line 478), the buffer after the writes, and the
remaining script.  `none` means the script ran out, i.e. the call would
block forever. -/
def ReadChunkLoop (bl ml : Nat) :
    List ChunkEvent → List Nat → Nat → Option (Int × List Nat × List ChunkEvent)
  | evs, buf, ar =>
    if ml ≤ ar then some ((ar : Int), buf, evs)
    else
      match evs with
      | [] => none
      | ChunkEvent.selectError :: rest => some (-1, buf, rest)
      | ChunkEvent.selectTimeout :: rest => some (-1, buf, rest)
      | ChunkEvent.readError :: rest => some (-1, buf, rest)
      | ChunkEvent.readData bs :: rest =>
        ReadChunkLoop bl ml rest (writeAt buf ar (bs.take (bl - ar)))
          (ar + (bs.take (bl - ar)).length)

/-- Entry point `ReadChunk` (lines 424-479): the loop entered with
`already_read = 0` (line 440). -/
def ReadChunk (evs : List ChunkEvent) (buf : List Nat) (bl ml : Nat) :
    Option (Int × List Nat × List ChunkEvent) :=
  ReadChunkLoop bl ml evs buf 0

/-- The per-reader connection state `_serialDevice` (lines 97-129):
descriptor, device path (`none` = slot free), the serial communication
buffer, the two cursors `buffer_offset` / `buffer_offset_last`, and the
`ccid.readTimeout` field used by `ReadChunk`; the remaining `ccid`
descriptor fields are never read by the code verified here. -/
structure SerialDevice where
  fd : Int
  device : Option String
  buffer : List Nat
  buffer_offset : Nat
  buffer_offset_last : Nat
  readTimeout : Nat
deriving DecidableEq

/-- The buffered-read layer `get_bytes` (lines 370-416): serve the request from the buffered
window `[buffer_offset, buffer_offset_last)` when it suffices (lines
378-383); otherwise copy the `present` unconsumed bytes out, issue one
`ReadChunk` for at least the shortfall into the buffer from offset 0,
and on success reset the cursors to (shortfall, bytes returned)
(lines 384-413).  A negative `ReadChunk` result is `STATUS_COMM_ERROR`
with the cursors untouched (lines 402-403). -/
def get_bytes (dev : SerialDevice) (evs : List ChunkEvent) (length : Nat) :
    Option (Status × List Nat × SerialDevice × List ChunkEvent) :=
  let offset := dev.buffer_offset
  let offset_last := dev.buffer_offset_last
  if offset + length ≤ offset_last then
    some (STATUS_SUCCESS, (dev.buffer.drop offset).take length,
      { dev with buffer_offset := offset + length }, evs)
  else
    let present := offset_last - offset
    let out1 := (dev.buffer.drop offset).take present
    match ReadChunk evs dev.buffer dev.buffer.length (length - present) with
    | none => none
    | some (rv, buf2, evs2) =>
      if rv < 0 then
        some (STATUS_COMM_ERROR, out1, { dev with buffer := buf2 }, evs2)
      else
        some (STATUS_SUCCESS, out1 ++ buf2.take (length - present),
          { dev with
            buffer := buf2
            buffer_offset := length - present
            buffer_offset_last := rv.toNat }, evs2)

/-- The cursor invariant of §3 of the spec:
`0 ≤ buffer_offset ≤ buffer_offset_last ≤ buffer capacity` (the lower
bound is implicit in `Nat`). -/
def cursorInv (dev : SerialDevice) : Prop :=
  dev.buffer_offset ≤ dev.buffer_offset_last ∧
    dev.buffer_offset_last ≤ dev.buffer.length

instance (dev : SerialDevice) : Decidable (cursorInv dev) := by
  unfold cursorInv; infer_instance

/-- The script drives the `ReadChunk` loop into the `select() == 0`
timeout branch (lines 456-460) before `min_length` bytes have
accumulated: zero or more data deliveries that stay short of the
minimum, then a timeout. -/
def hitsTimeout (bl ml : Nat) : List ChunkEvent → Nat → Bool
  | evs, ar =>
    if ml ≤ ar then false
    else
      match evs with
      | ChunkEvent.selectTimeout :: _ => true
      | ChunkEvent.readData bs :: rest =>
        hitsTimeout bl ml rest (ar + (bs.take (bl - ar)).length)
      | _ => false

/-- Update slot `i` of the reader table. -/
def modifySlot : List SerialDevice → Nat → (SerialDevice → SerialDevice) →
    List SerialDevice
  | [], _, _ => []
  | d :: ds, 0, f => f d :: ds
  | d :: ds, i + 1, f => d :: modifySlot ds i f

/-- Constant `DEFAULT_COM_READ_TIMEOUT` comes from the shared header `defs.h`.
Modelled from the spec and the code's own comment at line 628
("normal timeout: 2 seconds"). -/
def DEFAULT_COM_READ_TIMEOUT : Nat := 2

/-- Outcomes of the OS and collaborator calls `OpenSerialByName` makes:
the descriptor returned by `open(2)` (−1 on failure), the `tcgetattr` /
`tcsetattr` results, and the two `CmdEscape` commands.  Modelled from
the spec: `CmdEscape` belongs to the excluded command-layer collaborator
(§6); only its success or failure reaches the code verified here, and
the serial traffic it generates goes through `get_bytes`, which is
verified separately. -/
structure OpenOracle where
  openResult : Int
  tcgetattrOk : Bool
  tcsetattrOk : Bool
  escape1Ok : Bool
  escape2Ok : Bool
deriving DecidableEq

/-- Port open `OpenSerialByName` (lines 524-652): first the linear device-in-use
scan over every slot (lines 533-541, `device` non-null and equal); only
then `open(2)`, `strdup` of the device path, termios configuration, the
cursor reset to (0, 0) (lines 608-609), and the firmware / notification
`CmdEscape` exchanges with their timeout bookkeeping (lines 611-649).
`tcflush` (line 555) only logs and is omitted; the untouched `ccid`
capability fields are omitted. -/
def OpenSerialByName (slots : List SerialDevice) (reader : Nat)
    (dev_name : String) (o : OpenOracle) : Status × List SerialDevice :=
  if slots.any (fun s => s.device = some dev_name) then
    (STATUS_UNSUCCESSFUL, slots)
  else
    let slots1 := modifySlot slots reader (fun s => { s with fd := o.openResult })
    if o.openResult = -1 then (STATUS_UNSUCCESSFUL, slots1)
    else
      let slots2 := modifySlot slots1 reader
        (fun s => { s with device := some dev_name })
      if ¬ o.tcgetattrOk then
        (STATUS_UNSUCCESSFUL, modifySlot slots2 reader (fun s => { s with fd := -1 }))
      else if ¬ o.tcsetattrOk then
        (STATUS_UNSUCCESSFUL, modifySlot slots2 reader (fun s => { s with fd := -1 }))
      else
        let slots3 := modifySlot slots2 reader
          (fun s => { s with buffer_offset := 0, buffer_offset_last := 0 })
        let slots4 := modifySlot slots3 reader (fun s => { s with readTimeout := 2 })
        if ¬ o.escape1Ok then (STATUS_UNSUCCESSFUL, slots4)
        else
          let slots5 := modifySlot slots4 reader
            (fun s => { s with readTimeout := DEFAULT_COM_READ_TIMEOUT })
          if ¬ o.escape2Ok then (STATUS_UNSUCCESSFUL, slots5)
          else (STATUS_SUCCESS, slots5)

/- ------------------------------------------------------------------ -/
/- Theorems                                                           -/
/- ------------------------------------------------------------------ -/

/-- C5: for every payload of length at most capacity − 3 the encode
succeeds (given the single `write` call succeeds), the written buffer is
`[0x03, 0x06] ++ payload ++ [checksum]` with the checksum the XOR of all
preceding bytes of that buffer, and manually decoding the buffer (strip
the 2-byte prologue and the trailing checksum) recovers the payload
unchanged. -/
theorem WriteSerial_encode_correct (payload : List Nat)
    (h : payload.length ≤ GEMPCTWIN_MAXBUF - 3) :
    WriteSerial true payload =
      (STATUS_SUCCESS,
        some ([SYNC, CTRL_ACK] ++ payload ++
          [lrcFold ([SYNC, CTRL_ACK] ++ payload)])) ∧
    manualDecode ([SYNC, CTRL_ACK] ++ payload ++
          [lrcFold ([SYNC, CTRL_ACK] ++ payload)]) = payload := by
  constructor
  · unfold WriteSerial
    rw [if_neg (by omega)]
    simp
  · unfold manualDecode
    simp

/-- Witness for C5 at the concrete payload `[0x62, 0x00, 0x01]`. -/
theorem WriteSerial_encode_correct_witness :
    WriteSerial true [0x62, 0x00, 0x01] =
      (STATUS_SUCCESS,
        some ([SYNC, CTRL_ACK] ++ [0x62, 0x00, 0x01] ++
          [lrcFold ([SYNC, CTRL_ACK] ++ [0x62, 0x00, 0x01])])) ∧
    manualDecode ([SYNC, CTRL_ACK] ++ [0x62, 0x00, 0x01] ++
          [lrcFold ([SYNC, CTRL_ACK] ++ [0x62, 0x00, 0x01])]) =
      [0x62, 0x00, 0x01] :=
  WriteSerial_encode_correct [0x62, 0x00, 0x01] (by decide)

theorem streamGet_cons (a : Nat) (s : List Nat) :
    streamGet (a :: s) 1 = some (STATUS_SUCCESS, [a], s) := by
  simp [streamGet]

theorem streamGet_exact {xs : List Nat} {n : Nat} (rest : List Nat)
    (h : xs.length = n) :
    streamGet (xs ++ rest) n = some (STATUS_SUCCESS, xs, rest) := by
  unfold streamGet
  rw [if_pos (by simp [List.length_append]; omega), List.take_left' h,
    List.drop_left' h]

theorem getD_take_of_lt (f : List Nat) (i n : Nat) (h : i < n) :
    (f.take n).getD i 0 = f.getD i 0 := by
  simp [List.getD_eq_getElem?_getD, List.getElem?_take_of_lt h]

theorem dw2i_take5 (f : List Nat) : dw2i (f.take 5) 1 = dw2i f 1 := by
  unfold dw2i
  rw [getD_take_of_lt f 1 5 (by omega), getD_take_of_lt f 2 5 (by omega),
    getD_take_of_lt f 3 5 (by omega), getD_take_of_lt f 4 5 (by omega)]

/-- One pass of the state machine over a complete ACK unit with an
arbitrary trailing LRC byte `k`: the frame is consumed whole; on the echo
pass scanning restarts on the rest of the stream with the echo flag
cleared, otherwise the frame is delivered with `STATUS_SUCCESS`.  The
trailing checksum value never influences the outcome (lines 343-353 only
log a mismatch). -/
theorem readSerialAux_ack (fuel : Nat) (echo : Bool) (f : List Nat) (k : Nat)
    (rest : List Nat) (evs : List Event) (hf : WFframe f) :
    readSerialAux streamGet (fuel + 1) echo (SYNC :: CTRL_ACK :: (f ++ (k :: rest))) evs =
      if echo then readSerialAux streamGet fuel false rest evs
      else some ⟨STATUS_SUCCESS, some f, evs, rest⟩ := by
  unfold WFframe at hf
  have h5 : (f.take 5).length = 5 := by
    rw [List.length_take]; omega
  have hsplit : f ++ (k :: rest) = f.take 5 ++ ((f.drop 5) ++ (k :: rest)) := by
    rw [← List.append_assoc, List.take_append_drop]
  have hbody : (f.drop 5).length = (10 + dw2i (f.take 5) 1) - 5 := by
    rw [List.length_drop, dw2i_take5]; omega
  rw [readSerialAux, hsplit]
  simp [streamGet_cons, streamGet_exact _ h5, streamGet_exact _ hbody,
    List.take_append_drop, SYNC, CTRL_ACK, RDR_to_PC_NotifySlotChange]

/-- Slot-change step (lines 279-297): the tag and the movement code are
consumed, the movement is reported, and scanning restarts. -/
theorem readSerialAux_slotChange (fuel : Nat) (echo : Bool) (m : Nat)
    (rest : List Nat) (evs : List Event) :
    readSerialAux streamGet (fuel + 1) echo
        (RDR_to_PC_NotifySlotChange :: m :: rest) evs =
      readSerialAux streamGet fuel echo rest (evs ++ [movementEvent m]) := by
  rw [readSerialAux]
  simp [streamGet_cons, RDR_to_PC_NotifySlotChange]

/-- Time-request step (lines 270-274): a first byte ≥ 0x80 is discarded
and scanning restarts. -/
theorem readSerialAux_timeRequest (fuel : Nat) (echo : Bool) (c : Nat)
    (rest : List Nat) (evs : List Event) (h : 0x80 ≤ c) :
    readSerialAux streamGet (fuel + 1) echo (c :: rest) evs =
      readSerialAux streamGet fuel echo rest evs := by
  have h1 : c ≠ RDR_to_PC_NotifySlotChange := by
    unfold RDR_to_PC_NotifySlotChange; omega
  have h2 : c ≠ SYNC := by unfold SYNC; omega
  rw [readSerialAux]
  simp [streamGet_cons, h1, h2, h]

/-- NAK step with a correct NAK LRC (lines 313-324): the three bytes are
consumed and scanning restarts, with no frame and no status produced. -/
theorem readSerialAux_nak_ok (fuel : Nat) (echo : Bool) (rest : List Nat)
    (evs : List Event) :
    readSerialAux streamGet (fuel + 1) echo
        (SYNC :: CTRL_NAK :: ((SYNC ^^^ CTRL_NAK) :: rest)) evs =
      readSerialAux streamGet fuel echo rest evs := by
  rw [readSerialAux]
  simp [streamGet_cons, SYNC, CTRL_NAK, CTRL_ACK, RDR_to_PC_NotifySlotChange]

/-- NAK step with a wrong NAK LRC (lines 318-322): the decode FAILS with
`STATUS_COMM_ERROR` (the mismatch is logged, then `return`). -/
theorem readSerialAux_nak_bad (fuel : Nat) (echo : Bool) (b : Nat)
    (rest : List Nat) (evs : List Event) (h : b ≠ 0x16) :
    readSerialAux streamGet (fuel + 1) echo (SYNC :: CTRL_NAK :: (b :: rest)) evs =
      some ⟨STATUS_COMM_ERROR, none, evs, rest⟩ := by
  have hx : SYNC ^^^ CTRL_NAK = 22 := by decide
  rw [readSerialAux]
  simp [streamGet_cons, SYNC, CTRL_NAK, CTRL_ACK, RDR_to_PC_NotifySlotChange, hx, h]

/-- Unexpected first byte (lines 276-277): anything that is not the
slot-change tag, not SYNC and below 0x80 is a fatal `STATUS_COMM_ERROR`. -/
theorem readSerialAux_start_error (fuel : Nat) (echo : Bool) (c : Nat)
    (rest : List Nat) (evs : List Event)
    (h1 : c ≠ RDR_to_PC_NotifySlotChange) (h2 : c ≠ SYNC) (h3 : c < 0x80) :
    readSerialAux streamGet (fuel + 1) echo (c :: rest) evs =
      some ⟨STATUS_COMM_ERROR, none, evs, rest⟩ := by
  rw [readSerialAux]
  simp [streamGet_cons, h1, h2]
  omega

/-- Unexpected control byte after SYNC (lines 310-311): neither ACK nor
NAK is a fatal `STATUS_COMM_ERROR`. -/
theorem readSerialAux_sync_error (fuel : Nat) (echo : Bool) (k : Nat)
    (rest : List Nat) (evs : List Event)
    (h1 : k ≠ CTRL_ACK) (h2 : k ≠ CTRL_NAK) :
    readSerialAux streamGet (fuel + 1) echo (SYNC :: k :: rest) evs =
      some ⟨STATUS_COMM_ERROR, none, evs, rest⟩ := by
  rw [readSerialAux]
  simp [streamGet_cons, SYNC, RDR_to_PC_NotifySlotChange, h1, h2]

/-- C1 (amended): for a stream of two well-formed responses — each
`[SYNC, ACK]`, a frame whose first five bytes are the header declaring
payload length `L` and whose total length is `10 + L`, then a correct
checksum byte — the decode succeeds, producing exactly the second
occurrence's frame and consuming the whole stream (the first, echoed
occurrence is discarded). -/
theorem ReadSerial_echo_suppression (f1 f2 : List Nat)
    (h1 : WFframe f1) (h2 : WFframe f2) :
    ReadSerial 2 (encodeResponse f1 ++ encodeResponse f2) =
      some ⟨STATUS_SUCCESS, some f2, [], []⟩ := by
  unfold ReadSerial
  have e1 : encodeResponse f1 ++ encodeResponse f2 =
      SYNC :: CTRL_ACK ::
        (f1 ++ (((SYNC ^^^ CTRL_ACK) ^^^ lrcFold f1) :: encodeResponse f2)) := by
    simp [encodeResponse]
  rw [e1, readSerialAux_ack 1 true f1 _ _ [] h1, if_pos rfl]
  have e2 : encodeResponse f2 =
      SYNC :: CTRL_ACK ::
        (f2 ++ (((SYNC ^^^ CTRL_ACK) ^^^ lrcFold f2) :: [])) := rfl
  rw [e2, readSerialAux_ack 0 false f2 _ _ [] h2, if_neg (by simp)]

/-- Witness for C1 at two concrete zero-length frames. -/
theorem ReadSerial_echo_suppression_witness :
    ReadSerial 2 (encodeResponse [0, 0, 0, 0, 0, 0, 0, 0, 0, 0] ++
        encodeResponse [1, 0, 0, 0, 0, 0, 0, 0, 0, 42]) =
      some ⟨STATUS_SUCCESS, some [1, 0, 0, 0, 0, 0, 0, 0, 0, 42], [], []⟩ :=
  ReadSerial_echo_suppression [0, 0, 0, 0, 0, 0, 0, 0, 0, 0]
    [1, 0, 0, 0, 0, 0, 0, 0, 0, 42] (by decide) (by decide)

/-- C1 counterexample to the claim as literally stated: the stream
`[sync, ACK, 5-byte header declaring L = 0, (no payload bytes), correct
checksum]` twice — i.e. `[3,6,0,0,0,0,0,5]` twice, checksum
`5 = 3 XOR 6` — does NOT decode to a frame: the code reads `10 + L`
frame bytes after the 2-byte prologue, not `5 + L`, so it overruns into
the second copy and fails with `STATUS_COMM_ERROR` and no frame. -/
theorem ReadSerial_claimed_shape_fails :
    ReadSerial 2 ([3, 6, 0, 0, 0, 0, 0, 5] ++ [3, 6, 0, 0, 0, 0, 0, 5]) =
      some ⟨STATUS_COMM_ERROR, none, [], [0, 5]⟩ := by decide

/-- C2 counterexample to the claim as stated: after `[SYNC, NAK]` and a
wrong NAK checksum byte (`0x00` instead of `0x16`), the decode does NOT
return to scanning — it fails immediately with `STATUS_COMM_ERROR`
(line 321), leaving the following perfectly valid echo+response exchange
unread and producing no frame. -/
theorem ReadSerial_nak_mismatch_is_fatal :
    ReadSerial 3 ([3, 21, 0] ++
        (encodeResponse [0, 0, 0, 0, 0, 0, 0, 0, 0, 0] ++
         encodeResponse [0, 0, 0, 0, 0, 0, 0, 0, 0, 0])) =
      some ⟨STATUS_COMM_ERROR, none, [],
        encodeResponse [0, 0, 0, 0, 0, 0, 0, 0, 0, 0] ++
          encodeResponse [0, 0, 0, 0, 0, 0, 0, 0, 0, 0]⟩ := by decide

/-- C2 (amended): after `[SYNC, NAK]` the decoder reads one more byte and
compares it with `SYNC XOR NAK = 0x16`; on mismatch it logs the error and
FAILS the decode with `STATUS_COMM_ERROR`; on match control returns to
the `Start` state; in neither case is a frame produced from the NAK
exchange. -/
theorem ReadSerial_nak_handling :
    (∀ fuel echo b rest evs, b ≠ 0x16 →
      readSerialAux streamGet (fuel + 1) echo
          (SYNC :: CTRL_NAK :: (b :: rest)) evs =
        some ⟨STATUS_COMM_ERROR, none, evs, rest⟩) ∧
    (∀ fuel echo rest evs,
      readSerialAux streamGet (fuel + 1) echo
          (SYNC :: CTRL_NAK :: (0x16 :: rest)) evs =
        readSerialAux streamGet fuel echo rest evs) := by
  refine ⟨fun fuel echo b rest evs h => readSerialAux_nak_bad fuel echo b rest evs h,
    fun fuel echo rest evs => ?_⟩
  have hx : (0x16 : Nat) = SYNC ^^^ CTRL_NAK := by decide
  rw [hx, readSerialAux_nak_ok]

/-- Witness for C2 (amended) at concrete bytes. -/
theorem ReadSerial_nak_handling_witness :
    readSerialAux streamGet 1 true (SYNC :: CTRL_NAK :: (0 :: [])) [] =
      some ⟨STATUS_COMM_ERROR, none, [], []⟩ ∧
    readSerialAux streamGet 1 true (SYNC :: CTRL_NAK :: (0x16 :: [7])) [] =
      readSerialAux streamGet 0 true [7] [] :=
  ⟨ReadSerial_nak_handling.1 0 true 0 [] [] (by decide),
   ReadSerial_nak_handling.2 0 true [7] []⟩

/-- C3: the trailing response checksum byte never influences the decode:
for any two frames of declared length and ANY trailing checksum bytes
`k1`, `k2` (in particular wrong ones), the decode still completes with
`STATUS_SUCCESS` and still delivers the second frame to the caller —
a mismatch at line 352 is only logged. -/
theorem ReadSerial_checksum_non_fatal (f1 f2 : List Nat) (k1 k2 : Nat)
    (h1 : WFframe f1) (h2 : WFframe f2) :
    ReadSerial 2 ((SYNC :: CTRL_ACK :: (f1 ++ [k1])) ++
        (SYNC :: CTRL_ACK :: (f2 ++ [k2]))) =
      some ⟨STATUS_SUCCESS, some f2, [], []⟩ := by
  unfold ReadSerial
  have e1 : (SYNC :: CTRL_ACK :: (f1 ++ [k1])) ++
        (SYNC :: CTRL_ACK :: (f2 ++ [k2])) =
      SYNC :: CTRL_ACK ::
        (f1 ++ (k1 :: (SYNC :: CTRL_ACK :: (f2 ++ [k2])))) := by
    simp
  rw [e1, readSerialAux_ack 1 true f1 _ _ [] h1, if_pos rfl]
  have e2 : SYNC :: CTRL_ACK :: (f2 ++ [k2]) =
      SYNC :: CTRL_ACK :: (f2 ++ (k2 :: [])) := rfl
  rw [e2, readSerialAux_ack 0 false f2 _ _ [] h2, if_neg (by simp)]

/-- Witness for C3: both checksum bytes deliberately wrong (the correct
value for a zero frame is 5), yet the decode succeeds. -/
theorem ReadSerial_checksum_non_fatal_witness :
    ReadSerial 2 ((SYNC :: CTRL_ACK :: ([0, 0, 0, 0, 0, 0, 0, 0, 0, 0] ++ [0xFF])) ++
        (SYNC :: CTRL_ACK :: ([0, 0, 0, 0, 0, 0, 0, 0, 0, 0] ++ [0x00]))) =
      some ⟨STATUS_SUCCESS, some [0, 0, 0, 0, 0, 0, 0, 0, 0, 0], [], []⟩ :=
  ReadSerial_checksum_non_fatal [0, 0, 0, 0, 0, 0, 0, 0, 0, 0]
    [0, 0, 0, 0, 0, 0, 0, 0, 0, 0] 0xFF 0x00 (by decide) (by decide)

/-- C4: a slot-change notification `[0x50, 0x03]` between the echo and
the real response yields exactly one `CardInserted` event, control
returns to `Start`, and the delivered frame of the surrounding valid
echo+response exchange is undisturbed. -/
theorem ReadSerial_slot_change_interleaved (f1 f2 : List Nat)
    (h1 : WFframe f1) (h2 : WFframe f2) :
    ReadSerial 3 (encodeResponse f1 ++
        (RDR_to_PC_NotifySlotChange :: CARD_PRESENT :: encodeResponse f2)) =
      some ⟨STATUS_SUCCESS, some f2, [Event.CardInserted], []⟩ := by
  unfold ReadSerial
  have e1 : encodeResponse f1 ++
        (RDR_to_PC_NotifySlotChange :: CARD_PRESENT :: encodeResponse f2) =
      SYNC :: CTRL_ACK ::
        (f1 ++ (((SYNC ^^^ CTRL_ACK) ^^^ lrcFold f1) ::
          (RDR_to_PC_NotifySlotChange :: CARD_PRESENT :: encodeResponse f2))) := by
    simp [encodeResponse]
  rw [e1, readSerialAux_ack 2 true f1 _ _ [] h1, if_pos rfl,
    readSerialAux_slotChange]
  have em : movementEvent CARD_PRESENT = Event.CardInserted := by decide
  rw [em, List.nil_append]
  have e2 : encodeResponse f2 =
      SYNC :: CTRL_ACK ::
        (f2 ++ (((SYNC ^^^ CTRL_ACK) ^^^ lrcFold f2) :: [])) := rfl
  rw [e2, readSerialAux_ack 0 false f2 _ _ [Event.CardInserted] h2,
    if_neg (by simp)]

/-- Witness for C4 at two concrete zero-length frames. -/
theorem ReadSerial_slot_change_interleaved_witness :
    ReadSerial 3 (encodeResponse [0, 0, 0, 0, 0, 0, 0, 0, 0, 0] ++
        (RDR_to_PC_NotifySlotChange :: CARD_PRESENT ::
          encodeResponse [9, 0, 0, 0, 0, 0, 0, 0, 0, 1])) =
      some ⟨STATUS_SUCCESS, some [9, 0, 0, 0, 0, 0, 0, 0, 0, 1],
        [Event.CardInserted], []⟩ :=
  ReadSerial_slot_change_interleaved [0, 0, 0, 0, 0, 0, 0, 0, 0, 0]
    [9, 0, 0, 0, 0, 0, 0, 0, 0, 1] (by decide) (by decide)

theorem writeAt_nil (buf : List Nat) (ar : Nat) : writeAt buf ar [] = buf := by
  unfold writeAt
  simp

theorem writeAt_length (buf bs : List Nat) (ar : Nat)
    (h : ar + bs.length ≤ buf.length) :
    (writeAt buf ar bs).length = buf.length := by
  unfold writeAt
  simp [List.length_take, List.length_drop]
  omega

theorem writeAt_writeAt (buf got d : List Nat) (ar : Nat) (h : ar ≤ buf.length) :
    writeAt (writeAt buf ar got) (ar + got.length) d = writeAt buf ar (got ++ d) := by
  unfold writeAt
  have hpre : (buf.take ar ++ got).length = ar + got.length := by
    simp [List.length_take]
    omega
  rw [← List.append_assoc (buf.take ar) got, List.take_left' hpre,
    List.drop_append_eq_append_drop,
    List.drop_eq_nil_of_le (by omega : (buf.take ar ++ got).length ≤ ar + got.length + d.length),
    List.nil_append, hpre,
    (by omega : ar + got.length + d.length - (ar + got.length) = d.length),
    List.drop_drop,
    (by simp only [List.length_append]; omega : ar + (got ++ d).length = ar + got.length + d.length)]

/-- Full characterisation of the `ReadChunk` loop: the buffer keeps its
length, and a non-negative result means some delivered byte string `d`
was spliced in at `already_read`, with the returned count
`already_read + |d|` at least `min_length` and at most the buffer
capacity. -/
theorem ReadChunkLoop_spec (bl ml : Nat) (evs : List ChunkEvent) :
    ∀ (buf : List Nat) (ar : Nat), buf.length = bl → ar ≤ bl →
      ∀ rv buf2 evs2, ReadChunkLoop bl ml evs buf ar = some (rv, buf2, evs2) →
        buf2.length = bl ∧
          (rv = -1 ∨ ∃ d : List Nat,
            rv = ((ar + d.length : Nat) : Int) ∧ ml ≤ ar + d.length ∧
              ar + d.length ≤ bl ∧ buf2 = writeAt buf ar d) := by
  induction evs with
  | nil =>
    intro buf ar hlen har rv buf2 evs2 h
    rw [ReadChunkLoop.eq_def] at h
    simp only [] at h
    by_cases hml : ml ≤ ar
    · rw [if_pos hml] at h
      simp only [Option.some.injEq, Prod.mk.injEq] at h
      obtain ⟨h1, h2, h3⟩ := h
      subst h2
      exact ⟨hlen, Or.inr ⟨[], by simpa using h1.symm, by simpa using hml,
        by simpa using har, by simp [writeAt_nil]⟩⟩
    · rw [if_neg hml] at h
      simp at h
  | cons e rest ih =>
    intro buf ar hlen har rv buf2 evs2 h
    rw [ReadChunkLoop.eq_def] at h
    simp only [] at h
    by_cases hml : ml ≤ ar
    · rw [if_pos hml] at h
      simp only [Option.some.injEq, Prod.mk.injEq] at h
      obtain ⟨h1, h2, h3⟩ := h
      subst h2
      exact ⟨hlen, Or.inr ⟨[], by simpa using h1.symm, by simpa using hml,
        by simpa using har, by simp [writeAt_nil]⟩⟩
    · rw [if_neg hml] at h
      cases e with
      | selectError =>
        simp only [Option.some.injEq, Prod.mk.injEq] at h
        obtain ⟨h1, h2, h3⟩ := h
        exact ⟨h2 ▸ hlen, Or.inl h1.symm⟩
      | selectTimeout =>
        simp only [Option.some.injEq, Prod.mk.injEq] at h
        obtain ⟨h1, h2, h3⟩ := h
        exact ⟨h2 ▸ hlen, Or.inl h1.symm⟩
      | readError =>
        simp only [Option.some.injEq, Prod.mk.injEq] at h
        obtain ⟨h1, h2, h3⟩ := h
        exact ⟨h2 ▸ hlen, Or.inl h1.symm⟩
      | readData bs =>
        have hgotlen : (bs.take (bl - ar)).length ≤ bl - ar := by
          simp [List.length_take]
        have har2 : ar + (bs.take (bl - ar)).length ≤ bl := by omega
        have hlen2 : (writeAt buf ar (bs.take (bl - ar))).length = bl := by
          rw [writeAt_length buf _ ar (by omega)]
          exact hlen
        obtain ⟨hl2, hres⟩ := ih (writeAt buf ar (bs.take (bl - ar)))
          (ar + (bs.take (bl - ar)).length) hlen2 har2 rv buf2 evs2 h
        refine ⟨hl2, ?_⟩
        rcases hres with h1 | ⟨d, hd1, hd2, hd3, hd4⟩
        · exact Or.inl h1
        · refine Or.inr ⟨bs.take (bl - ar) ++ d, ?_, ?_, ?_, ?_⟩
          · rw [hd1]
            congr 1
            simp [List.length_append]
            omega
          · simp only [List.length_append]
            omega
          · simp only [List.length_append]
            omega
          · rw [hd4, writeAt_writeAt buf _ d ar (by omega)]

/-- C6: a `get_bytes` request for `N` bytes with only
`present < N` unconsumed bytes buffered issues exactly one `ReadChunk`
whose minimum is the shortfall `N − present` (hypothesis `hrc` is that
single call); on its success delivering the fresh bytes `d`, the output
is the `present` buffered bytes followed by the first `N − present`
fresh bytes, and afterwards `buffer_offset` = shortfall and
`buffer_offset_last` = the count the chunk read returned, so surplus
fresh bytes stay buffered. -/
theorem get_bytes_buffered_lookahead (dev : SerialDevice)
    (evs : List ChunkEvent) (N : Nat) (rv : Int) (buf2 : List Nat)
    (evs2 : List ChunkEvent)
    (hshort : dev.buffer_offset_last < dev.buffer_offset + N)
    (hrc : ReadChunk evs dev.buffer dev.buffer.length
        (N - (dev.buffer_offset_last - dev.buffer_offset)) =
      some (rv, buf2, evs2))
    (hok : 0 ≤ rv) :
    ∃ d : List Nat,
      buf2 = d ++ dev.buffer.drop d.length ∧ rv = (d.length : Int) ∧
      N - (dev.buffer_offset_last - dev.buffer_offset) ≤ d.length ∧
      d.length ≤ dev.buffer.length ∧
      get_bytes dev evs N = some (STATUS_SUCCESS,
        (dev.buffer.drop dev.buffer_offset).take
            (dev.buffer_offset_last - dev.buffer_offset) ++
          d.take (N - (dev.buffer_offset_last - dev.buffer_offset)),
        { dev with
          buffer := buf2
          buffer_offset := N - (dev.buffer_offset_last - dev.buffer_offset)
          buffer_offset_last := d.length }, evs2) := by
  obtain ⟨hl, hres⟩ := ReadChunkLoop_spec dev.buffer.length _ evs dev.buffer 0
    rfl (Nat.zero_le _) rv buf2 evs2 hrc
  rcases hres with h1 | ⟨d, hd1, hd2, hd3, hd4⟩
  · subst h1
    omega
  · simp only [Nat.zero_add] at hd1 hd2 hd3
    refine ⟨d, ?_, hd1, by omega, by omega, ?_⟩
    · rw [hd4]
      unfold writeAt
      simp
    · simp only [get_bytes, hrc]
      rw [if_neg (by omega), if_neg (by omega)]
      have e : writeAt dev.buffer 0 d = d ++ dev.buffer.drop d.length := by
        unfold writeAt
        simp
      rw [hd4, e, List.take_append_of_le_length (by omega), hd1]
      simp

/-- Witness for C6: one unconsumed byte (`8`) buffered, request for 3,
one chunk read delivering `[1, 2, 3]`. -/
theorem get_bytes_buffered_lookahead_witness :
    ∃ d : List Nat,
      ([1, 2, 3, 6] : List Nat) = d ++ ([9, 8, 7, 6] : List Nat).drop d.length ∧
      (3 : Int) = (d.length : Int) ∧
      3 - (2 - 1) ≤ d.length ∧ d.length ≤ ([9, 8, 7, 6] : List Nat).length ∧
      get_bytes ⟨0, none, [9, 8, 7, 6], 1, 2, 2⟩
          [ChunkEvent.readData [1, 2, 3]] 3 =
        some (STATUS_SUCCESS,
          (([9, 8, 7, 6] : List Nat).drop 1).take (2 - 1) ++ d.take (3 - (2 - 1)),
          ⟨0, none, [1, 2, 3, 6], 3 - (2 - 1), d.length, 2⟩, []) :=
  get_bytes_buffered_lookahead ⟨0, none, [9, 8, 7, 6], 1, 2, 2⟩
    [ChunkEvent.readData [1, 2, 3]] 3 3 [1, 2, 3, 6] []
    (by decide) (by decide) (by decide)

theorem modifySlot_getElem? (l : List SerialDevice) (i : Nat)
    (f : SerialDevice → SerialDevice) :
    (modifySlot l i f)[i]? = (l[i]?).map f := by
  induction l generalizing i with
  | nil => simp [modifySlot]
  | cons d ds ih =>
    cases i with
    | zero => simp [modifySlot]
    | succ n => simp [modifySlot, ih]

/-- The script drives `ReadChunk` into its timeout branch: the loop
returns −1. -/
theorem ReadChunkLoop_timeout (bl ml : Nat) (evs : List ChunkEvent) :
    ∀ (buf : List Nat) (ar : Nat), hitsTimeout bl ml evs ar = true →
      ∃ buf2 evs2, ReadChunkLoop bl ml evs buf ar = some (-1, buf2, evs2) := by
  induction evs with
  | nil =>
    intro buf ar h
    rw [hitsTimeout.eq_def] at h
    simp only [] at h
    by_cases hml : ml ≤ ar
    · rw [if_pos hml] at h
      simp at h
    · rw [if_neg hml] at h
      simp at h
  | cons e rest ih =>
    intro buf ar h
    rw [hitsTimeout.eq_def] at h
    simp only [] at h
    rw [ReadChunkLoop.eq_def]
    simp only []
    by_cases hml : ml ≤ ar
    · rw [if_pos hml] at h
      simp at h
    · rw [if_neg hml] at h
      rw [if_neg hml]
      cases e with
      | selectError => simp at h
      | selectTimeout => exact ⟨buf, rest, rfl⟩
      | readError => simp at h
      | readData bs =>
        obtain ⟨buf2, evs2, hh⟩ := ih (writeAt buf ar (bs.take (bl - ar)))
          (ar + (bs.take (bl - ar)).length) h
        exact ⟨buf2, evs2, hh⟩

/-- C7: when the readiness wait times out (zero ready descriptors)
before the minimum byte count of the triggered chunk read is reached,
`get_bytes` fails — `ReadChunk` returns −1, surfaced as the code's fatal
read status `STATUS_COMM_ERROR` (the spec's `TimeoutError`) — and both
buffer cursors are exactly what they were before the request. -/
theorem get_bytes_timeout_atomic (dev : SerialDevice) (evs : List ChunkEvent)
    (N : Nat)
    (hshort : dev.buffer_offset_last < dev.buffer_offset + N)
    (ht : hitsTimeout dev.buffer.length
        (N - (dev.buffer_offset_last - dev.buffer_offset)) evs 0 = true) :
    ∃ (out : List Nat) (dev2 : SerialDevice) (evs2 : List ChunkEvent),
      get_bytes dev evs N = some (STATUS_COMM_ERROR, out, dev2, evs2) ∧
      dev2.buffer_offset = dev.buffer_offset ∧
      dev2.buffer_offset_last = dev.buffer_offset_last := by
  obtain ⟨buf2, evs2, hrc⟩ := ReadChunkLoop_timeout dev.buffer.length
    (N - (dev.buffer_offset_last - dev.buffer_offset)) evs dev.buffer 0 ht
  refine ⟨(dev.buffer.drop dev.buffer_offset).take
      (dev.buffer_offset_last - dev.buffer_offset),
    { dev with buffer := buf2 }, evs2, ?_, rfl, rfl⟩
  simp only [get_bytes, ReadChunk, hrc]
  rw [if_neg (by omega), if_pos (by decide)]

/-- Witness for C7: empty buffer, request for one byte, script is a bare
timeout. -/
theorem get_bytes_timeout_atomic_witness :
    ∃ (out : List Nat) (dev2 : SerialDevice) (evs2 : List ChunkEvent),
      get_bytes ⟨0, none, [5, 5], 0, 0, 2⟩ [ChunkEvent.selectTimeout] 1 =
        some (STATUS_COMM_ERROR, out, dev2, evs2) ∧
      dev2.buffer_offset = (0 : Nat) ∧ dev2.buffer_offset_last = (0 : Nat) :=
  get_bytes_timeout_atomic ⟨0, none, [5, 5], 0, 0, 2⟩
    [ChunkEvent.selectTimeout] 1 (by decide) (by decide)

/-- C8: the cursor invariant `0 ≤ buffer_offset ≤ buffer_offset_last ≤
capacity`.  Creation: a successful `OpenSerialByName` leaves the opened
slot with both cursors reset to 0 (lines 608-609), so the invariant
holds.  Preservation: every completed `get_bytes` — successful or failed
— preserves the invariant; each underlying `read` returns at most the
byte count it was asked for, which the model guarantees by construction
(`bs.take (bl - ar)`). -/
theorem cursor_invariant (slots : List SerialDevice) (reader : Nat)
    (dev_name : String) (o : OpenOracle) (slots2 : List SerialDevice)
    (hopen : OpenSerialByName slots reader dev_name o = (STATUS_SUCCESS, slots2)) :
    (∀ s, slots2[reader]? = some s →
      s.buffer_offset = 0 ∧ s.buffer_offset_last = 0 ∧ cursorInv s) ∧
    (∀ (dev : SerialDevice) evs N st out (dev2 : SerialDevice) evs2,
      cursorInv dev → get_bytes dev evs N = some (st, out, dev2, evs2) →
      cursorInv dev2) := by
  constructor
  · intro s hs
    simp only [OpenSerialByName] at hopen
    by_cases h1 : slots.any (fun s => s.device = some dev_name)
    · rw [if_pos h1] at hopen
      simp only [Prod.mk.injEq] at hopen
      exact absurd hopen.1 (by decide)
    · rw [if_neg h1] at hopen
      by_cases h2 : o.openResult = -1
      · rw [if_pos h2] at hopen
        simp only [Prod.mk.injEq] at hopen
        exact absurd hopen.1 (by decide)
      · rw [if_neg h2] at hopen
        by_cases h3 : ¬ o.tcgetattrOk
        · rw [if_pos h3] at hopen
          simp only [Prod.mk.injEq] at hopen
          exact absurd hopen.1 (by decide)
        · rw [if_neg h3] at hopen
          by_cases h4 : ¬ o.tcsetattrOk
          · rw [if_pos h4] at hopen
            simp only [Prod.mk.injEq] at hopen
            exact absurd hopen.1 (by decide)
          · rw [if_neg h4] at hopen
            by_cases h5 : ¬ o.escape1Ok
            · rw [if_pos h5] at hopen
              simp only [Prod.mk.injEq] at hopen
              exact absurd hopen.1 (by decide)
            · rw [if_neg h5] at hopen
              by_cases h6 : ¬ o.escape2Ok
              · rw [if_pos h6] at hopen
                simp only [Prod.mk.injEq] at hopen
                exact absurd hopen.1 (by decide)
              · rw [if_neg h6] at hopen
                simp only [Prod.mk.injEq] at hopen
                rw [← hopen.2] at hs
                simp only [modifySlot_getElem?, Option.map_map] at hs
                cases ho : slots[reader]? with
                | none => rw [ho] at hs; simp at hs
                | some s0 =>
                  rw [ho] at hs
                  simp at hs
                  subst hs
                  refine ⟨rfl, rfl, ?_⟩
                  unfold cursorInv
                  exact ⟨Nat.le_refl 0, Nat.zero_le _⟩
  · intro dev evs N st out dev2 evs2 hInv hgb
    simp only [get_bytes] at hgb
    by_cases hc : dev.buffer_offset + N ≤ dev.buffer_offset_last
    · rw [if_pos hc] at hgb
      simp only [Option.some.injEq, Prod.mk.injEq] at hgb
      obtain ⟨-, -, hdev, -⟩ := hgb
      rw [← hdev]
      unfold cursorInv at hInv ⊢
      simp only []
      omega
    · rw [if_neg hc] at hgb
      cases hrc : ReadChunk evs dev.buffer dev.buffer.length
          (N - (dev.buffer_offset_last - dev.buffer_offset)) with
      | none =>
        rw [hrc] at hgb
        simp at hgb
      | some res =>
        obtain ⟨rv, buf2, evs2x⟩ := res
        simp only [hrc] at hgb
        obtain ⟨hlen, hres⟩ := ReadChunkLoop_spec dev.buffer.length _ evs
          dev.buffer 0 rfl (Nat.zero_le _) rv buf2 evs2x hrc
        by_cases hneg : rv < 0
        · rw [if_pos hneg] at hgb
          simp only [Option.some.injEq, Prod.mk.injEq] at hgb
          obtain ⟨-, -, hdev, -⟩ := hgb
          rw [← hdev]
          unfold cursorInv at hInv ⊢
          simp only []
          omega
        · rw [if_neg hneg] at hgb
          simp only [Option.some.injEq, Prod.mk.injEq] at hgb
          obtain ⟨-, -, hdev, -⟩ := hgb
          rw [← hdev]
          rcases hres with h1 | ⟨d, hd1, hd2, hd3, hd4⟩
          · omega
          · unfold cursorInv
            simp only []
            simp only [Nat.zero_add] at hd1 hd2 hd3
            rw [hd1]
            simp only [Int.toNat_ofNat]
            omega

/-- Witness for C8 at a concrete one-slot table and a concrete buffered
request. -/
theorem cursor_invariant_witness :
    (∀ s, ((OpenSerialByName [⟨-1, none, [0, 0], 7, 9, 2⟩] 0 "/dev/pcsc/1"
          ⟨4, true, true, true, true⟩).2)[0]? = some s →
      s.buffer_offset = 0 ∧ s.buffer_offset_last = 0 ∧ cursorInv s) ∧
    (∀ (dev : SerialDevice) evs N st out (dev2 : SerialDevice) evs2,
      cursorInv dev → get_bytes dev evs N = some (st, out, dev2, evs2) →
      cursorInv dev2) :=
  cursor_invariant [⟨-1, none, [0, 0], 7, 9, 2⟩] 0 "/dev/pcsc/1"
    ⟨4, true, true, true, true⟩
    (OpenSerialByName [⟨-1, none, [0, 0], 7, 9, 2⟩] 0 "/dev/pcsc/1"
      ⟨4, true, true, true, true⟩).2 (by decide)

/-- C9: opening a device path already owned by a live slot fails with
the device-already-in-use error (`STATUS_UNSUCCESSFUL`, lines 533-541),
leaves every slot — in particular the owning one — unchanged, and does
so before touching the descriptor: the outcome is independent of every
OS-call result in the oracle. -/
theorem OpenSerialByName_device_in_use (slots : List SerialDevice)
    (reader : Nat) (dev_name : String) (o o2 : OpenOracle)
    (h : slots.any (fun s => s.device = some dev_name) = true) :
    OpenSerialByName slots reader dev_name o = (STATUS_UNSUCCESSFUL, slots) ∧
    OpenSerialByName slots reader dev_name o =
      OpenSerialByName slots reader dev_name o2 := by
  unfold OpenSerialByName
  rw [if_pos h, if_pos h]
  exact ⟨rfl, rfl⟩

/-- Witness for C9: a one-slot table owning `/dev/ttyS0`, reopened with
two maximally different oracles. -/
theorem OpenSerialByName_device_in_use_witness :
    OpenSerialByName [⟨3, some "/dev/ttyS0", [], 0, 0, 2⟩] 0 "/dev/ttyS0"
        ⟨4, true, true, true, true⟩ =
      (STATUS_UNSUCCESSFUL, [⟨3, some "/dev/ttyS0", [], 0, 0, 2⟩]) ∧
    OpenSerialByName [⟨3, some "/dev/ttyS0", [], 0, 0, 2⟩] 0 "/dev/ttyS0"
        ⟨4, true, true, true, true⟩ =
      OpenSerialByName [⟨3, some "/dev/ttyS0", [], 0, 0, 2⟩] 0 "/dev/ttyS0"
        ⟨-1, false, false, false, false⟩ :=
  OpenSerialByName_device_in_use [⟨3, some "/dev/ttyS0", [], 0, 0, 2⟩] 0
    "/dev/ttyS0" ⟨4, true, true, true, true⟩ ⟨-1, false, false, false, false⟩
    (by decide)

/-- C10: every fatal receive-path failure surfaces as one and the same
caller-visible value.  `ReadChunk` returns −1 for a select timeout, a
read error and a select error alike; a triggered chunk read returning a
negative value makes `get_bytes` return `STATUS_COMM_ERROR`; and
`ReadSerial` returns the same `STATUS_COMM_ERROR` for an unexpected
first byte below 0x80 and for a non-ACK/non-NAK byte after SYNC — so the
caller cannot tell timeout, I/O failure and protocol desynchronisation
apart from the result alone. -/
theorem fatal_error_conflation :
    (∀ bl ml evs (buf : List Nat) ar, ar < ml →
      ReadChunkLoop bl ml (ChunkEvent.selectTimeout :: evs) buf ar =
          some (-1, buf, evs) ∧
      ReadChunkLoop bl ml (ChunkEvent.readError :: evs) buf ar =
          some (-1, buf, evs) ∧
      ReadChunkLoop bl ml (ChunkEvent.selectError :: evs) buf ar =
          some (-1, buf, evs)) ∧
    (∀ (dev : SerialDevice) evs N rv buf2 evs2,
      dev.buffer_offset_last < dev.buffer_offset + N →
      ReadChunk evs dev.buffer dev.buffer.length
          (N - (dev.buffer_offset_last - dev.buffer_offset)) =
        some (rv, buf2, evs2) →
      rv < 0 →
      get_bytes dev evs N = some (STATUS_COMM_ERROR,
        (dev.buffer.drop dev.buffer_offset).take
          (dev.buffer_offset_last - dev.buffer_offset),
        { dev with buffer := buf2 }, evs2)) ∧
    (∀ fuel c rest, c ≠ RDR_to_PC_NotifySlotChange → c ≠ SYNC → c < 0x80 →
      ReadSerial (fuel + 1) (c :: rest) =
        some ⟨STATUS_COMM_ERROR, none, [], rest⟩) ∧
    (∀ fuel k rest, k ≠ CTRL_ACK → k ≠ CTRL_NAK →
      ReadSerial (fuel + 1) (SYNC :: k :: rest) =
        some ⟨STATUS_COMM_ERROR, none, [], rest⟩) := by
  refine ⟨fun bl ml evs buf ar h => ?_, fun dev evs N rv buf2 evs2 h1 h2 h3 => ?_,
    fun fuel c rest h1 h2 h3 =>
      readSerialAux_start_error fuel true c rest [] h1 h2 h3,
    fun fuel k rest h1 h2 =>
      readSerialAux_sync_error fuel true k rest [] h1 h2⟩
  · rw [ReadChunkLoop.eq_def, ReadChunkLoop.eq_def, ReadChunkLoop.eq_def]
    simp only []
    rw [if_neg (by omega), if_neg (by omega), if_neg (by omega)]
    exact ⟨rfl, rfl, rfl⟩
  · simp only [get_bytes, ReadChunk] at h2 ⊢
    simp only [h2]
    rw [if_neg (by omega), if_pos h3]

/-- Witness for C10 at concrete failing runs of each kind. -/
theorem fatal_error_conflation_witness :
    (ReadChunkLoop 1 1 [ChunkEvent.selectTimeout] [0] 0 = some (-1, [0], []) ∧
      ReadChunkLoop 1 1 [ChunkEvent.readError] [0] 0 = some (-1, [0], []) ∧
      ReadChunkLoop 1 1 [ChunkEvent.selectError] [0] 0 = some (-1, [0], [])) ∧
    get_bytes ⟨0, none, [0], 0, 0, 2⟩ [ChunkEvent.selectTimeout] 1 =
      some (STATUS_COMM_ERROR, (([0] : List Nat).drop 0).take (0 - 0),
        ⟨0, none, [0], 0, 0, 2⟩, []) ∧
    ReadSerial 1 [1] = some ⟨STATUS_COMM_ERROR, none, [], []⟩ ∧
    ReadSerial 1 [SYNC, 0] = some ⟨STATUS_COMM_ERROR, none, [], []⟩ :=
  ⟨fatal_error_conflation.1 1 1 [] [0] 0 (by decide),
    fatal_error_conflation.2.1 ⟨0, none, [0], 0, 0, 2⟩
      [ChunkEvent.selectTimeout] 1 (-1) [0] [] (by decide) (by decide) (by decide),
    fatal_error_conflation.2.2.1 0 1 [] (by decide) (by decide) (by decide),
    fatal_error_conflation.2.2.2 0 0 [] (by decide) (by decide)⟩

end CCIDSerial
